import Mathlib

/-!
Verification development for the `zion-brain` repository.

Shallow embedding of the three request handlers:
  * `src/api/zion.js`     — deterministic qualification dialogue (state machine)
  * `src/api/intake.js`   — intake → CRM webhook → proposal generation → KV store
  * `src/api/proposal.js` — fetch stored proposal by pid

JavaScript strings are modelled as Lean `String` (operating on the character
list `String.data`; JS operates on UTF-16 code units, which coincides with
characters for all text appearing in this code base).  JS objects that the
code treats as fixed-shape records are modelled as Lean structures; absent JS
fields are represented by the falsy defaults the code tests for (`""`, `none`,
`0`, `false`).  External effects (the text-generation API, the CRM webhook,
the KV REST store, `Math.random()`, the clock) are modelled as explicit
inputs.
-/

namespace ZB

/-! Section: JS string helpers -/

/-- JS whitespace test used by `trim` and the regex class `\s`
(restricted to the ASCII whitespace actually occurring in this repository). -/
def isWs (c : Char) : Bool := c.isWhitespace

/-- JS `String.prototype.trim`. -/
def jsTrim (s : String) : String :=
  String.mk (((s.data.dropWhile isWs).reverse.dropWhile isWs).reverse)

/-- JS `String.prototype.toLowerCase` (ASCII; all dialogue keywords are ASCII). -/
def jsLower (s : String) : String := String.mk (s.data.map Char.toLower)

/-- JS `String.prototype.toUpperCase` (ASCII). -/
def jsUpper (s : String) : String := String.mk (s.data.map Char.toUpper)

/-- JS `s.slice(0, n)`. -/
def jsTake (s : String) (n : Nat) : String := String.mk (s.data.take n)

/-- character-list test: `pat` occurs at the start of `s`. -/
def chPref : List Char → List Char → Bool
  | [], _ => true
  | _ :: _, [] => false
  | a :: as, b :: bs => a = b && chPref as bs

/-- character-list test: `pat` occurs somewhere inside `s`
(`String.prototype.includes`). -/
def chSub (pat : List Char) : List Char → Bool
  | [] => pat.isEmpty
  | b :: bs => chPref pat (b :: bs) || chSub pat bs

/-- JS `s.includes(pat)`. -/
def strHas (s pat : String) : Bool := chSub pat.data s.data

/-! Section: zion.js — deterministic intake gate -/

/-- function `normalize` from zion.js: `String(s ?? "").trim()`. -/
def normalize (s : String) : String := jsTrim s

/-- function `clampStr` from zion.js: `String(s ?? "").trim().slice(0, max)`. -/
def clampStr (s : String) (max : Nat) : String := jsTake (jsTrim s) max

/-- the closed set of acknowledgement / uncertainty tokens of `isNonAnswer`. -/
def nonAnswerList : List String :=
  ["idk", "i dont know", "not sure", "help", "how", "ok", "okay",
   "sounds good", "yes", "yep", "yeah", "cool"]

/-- function `isNonAnswer` from zion.js: lowercase, trim; empty or a member of the
closed token list. -/
def isNonAnswer (text : String) : Bool :=
  let t := jsTrim (jsLower text)
  if t = "" then true else nonAnswerList.contains t

/-- function `inferGoal` from zion.js (keyword heuristics; note: no trim). -/
def inferGoal (text : String) : String :=
  let t := jsLower text
  if t = "" then ""
  else if strHas t ("lead") then ("Leads")
  else if strHas t ("sale") || strHas t ("revenue") then ("Sales")
  else if strHas t ("book") || strHas t ("estimate") || strHas t ("appointment") then ("Bookings")
  else if strHas t ("follow") || strHas t ("nurture") || strHas t ("automation") then ("Follow-up")
  else if strHas t ("seo") || strHas t ("rank") || strHas t ("google") then ("SEO / Visibility")
  else if strHas t ("content") || strHas t ("post") || strHas t ("social") then ("Content")
  else ""

/-- result record of `inferBusinessType`. -/
structure BizType where
  raw : String
  label : String
  buyer : String
deriving DecidableEq

/-- function `inferBusinessType` from zion.js. -/
def inferBusinessType (text : String) : BizType :=
  let raw := clampStr text 240
  let t := jsLower raw
  let label :=
    if strHas t ("landscap") then ("Landscaping / Outdoor")
    else if strHas t ("home service") || strHas t ("roof") || strHas t ("hvac") ||
            strHas t ("plumb") || strHas t ("electric") || strHas t ("contract") then
      ("Home Services")
    else if strHas t ("real estate") || strHas t ("realtor") then ("Real Estate")
    else if strHas t ("law") || strHas t ("attorney") then ("Legal")
    else if strHas t ("clinic") || strHas t ("med") || strHas t ("dental") then ("Healthcare")
    else if strHas t ("ecom") || strHas t ("shopify") || strHas t ("store") then ("E-Commerce")
    else ""
  let buyer :=
    if strHas t ("homeowner") then ("Homeowners")
    else if strHas t ("b2b") || strHas t ("business") then ("Businesses")
    else if strHas t ("consumer") || strHas t ("customer") then ("Consumers")
    else ""
  { raw := raw, label := label, buyer := buyer }

/-- result record of `inferTargetMetric`. -/
structure TMetric where
  raw : String
  num : Option Nat
  unit : String
deriving DecidableEq

/-- the unit alternatives of the zion.js metric regex, in alternation order. -/
def unitsList : List String :=
  ["lead", "leads", "booking", "bookings", "estimate", "estimates",
   "calls", "appointments", "jobs", "customers"]

/-- first unit word (alternation order) matching at the head of `cs`,
case-insensitively — the `(lead|leads|...)` group of the metric regex. -/
def matchUnit (cs : List Char) : Option String :=
  unitsList.find? (fun u => chPref u.data (cs.map Char.toLower))

/-- decimal value of a digit run (`Number(m[1])`). -/
def digitsVal (ds : List Char) : Nat :=
  ds.foldl (fun n c => n * 10 + (c.toNat - 48)) 0

/-- left-to-right scan implementing the regex
`/(\d+)\s*(lead|leads|booking|bookings|estimate|estimates|calls|appointments|jobs|customers)/i`:
at each position, a maximal digit run, optional whitespace, then a unit word.
(Backtracking inside `\d+` or `\s*` can never produce a match that this
greedy scan misses, because no unit word starts with a digit or whitespace.) -/
def scanMetric : List Char → Option (Nat × String)
  | [] => none
  | c :: rest =>
    if c.isDigit then
      let ds := (c :: rest).takeWhile Char.isDigit
      let after := ((c :: rest).dropWhile Char.isDigit).dropWhile isWs
      match matchUnit after with
      | some u => some (digitsVal ds, u)
      | none => scanMetric rest
    else scanMetric rest

/-- function `inferTargetMetric` from zion.js. -/
def inferTargetMetric (text : String) : TMetric :=
  let raw := clampStr text 220
  match scanMetric raw.data with
  | some (n, u) => { raw := raw, num := some n, unit := u }
  | none => { raw := raw, num := none, unit := "" }

/-- one transcript entry; the code pushes either `{turn, user, at}` or
`{turn, zion, at}` — modelled as one record with optional fields
(`atIso` is the JS field `at`, which is a Lean keyword). -/
structure ZTurn where
  turn : Int
  user : Option String
  zion : Option String
  atIso : String
deriving DecidableEq

/-- the round-tripped dialogue state ("notes").  Absent JS fields are the
falsy defaults the code tests for (`""`, `0`, `false`, `none`, `[]`). -/
structure Notes where
  session_id : String := ""
  last_updated_at : String := ""
  stage : String := ""
  capture_locked : Bool := false
  user_inputs : Int := 0
  transcript : List ZTurn := []
  business_offer : String := ""
  primary_goal : String := ""
  primary_goal_raw : String := ""
  business_type : String := ""
  industry : String := ""
  buyer : String := ""
  target_metric : String := ""
  target_metric_number : Option Nat := none
  target_metric_unit : String := ""
deriving DecidableEq

/-- the decoded POST body of the dialogue endpoint.  `turn = some n` iff
`Number(body.turn)` is finite with value `n`; `notes = none` iff `body.notes`
is not an object (then `safeObj` yields `{}`). -/
structure ZionBody where
  message : String := ""
  session_id : String := ""
  turn : Option Int := none
  notes : Option Notes := none
deriving DecidableEq

/-- the JSON response of one dialogue turn (plus the HTTP status used). -/
structure ZionResp where
  status : Nat
  reply : String
  next_question : String
  capture_intent : String
  turn : Int
  notes : Notes
deriving DecidableEq

/-- deterministic prompt record (`promptGoal` etc. in zion.js). -/
structure ZPrompt where
  reply : String
  next_question : String
  capture_intent : String
  stage : String
deriving DecidableEq

/-- function `promptGoal()` from zion.js. -/
def promptGoal : ZPrompt :=
  { reply := "Zion online. What is your #1 goal for the next 30 days—leads, booked estimates, or revenue?"
    next_question := "What is your #1 goal for the next 30 days (leads, booked estimates, or revenue)?"
    capture_intent := "none"
    stage := "goal" }

/-- function `promptBusiness()` from zion.js. -/
def promptBusiness : ZPrompt :=
  { reply := "Understood. What do you do, and who do you sell to?"
    next_question := "What do you do, and who is the primary buyer?"
    capture_intent := "none"
    stage := "business" }

/-- function `promptMetric()` from zion.js. -/
def promptMetric : ZPrompt :=
  { reply := "Good. Now set a measurable target. What would make the next 30 days a win—give me a number."
    next_question := "What would make the next 30 days a win (e.g., 20 leads, 10 bookings, $15k revenue)?"
    capture_intent := "none"
    stage := "metric" }

/-- function `triggerIntake()` from zion.js. -/
def triggerIntake : ZPrompt :=
  { reply := "Perfect. I have enough to generate your executive summary + tiers. Open the intake—two minutes—and I’ll output the plan."
    next_question := "Open the intake so I can generate your executive summary and tiers."
    capture_intent := "ask_contact"
    stage := "capture" }

/-- the fixed reply block used once capture is locked (zion.js line 371). -/
def lockedPrompt : ZPrompt :=
  { reply := "I’m ready. Complete the intake and I’ll generate your executive summary and tiers."
    next_question := "Complete the intake so I can generate your executive summary and tiers."
    capture_intent := "ask_contact"
    stage := "capture" }

/-- per-request context derived from the body (normalized message, turn
counter, timestamp). -/
structure ZCtx where
  message : String
  turnIn : Int
  now : String

/-- shared response tail of every zion.js branch: push the zion transcript
entry and return `{reply, next_question, capture_intent, turn: turnIn+1, notes}`
with HTTP status 200. -/
def respond (n : Notes) (c : ZCtx) (out : ZPrompt) : ZionResp :=
  let n2 := { n with transcript :=
      n.transcript ++ [{ turn := c.turnIn + 1, user := none, zion := some out.reply, atIso := c.now }] }
  { status := 200, reply := out.reply, next_question := out.next_question,
    capture_intent := out.capture_intent, turn := c.turnIn + 1, notes := n2 }

/-- the two hard-cap branches of zion.js (identical code at both call
sites): lock capture, force stage `capture`, emit `triggerIntake`. -/
def stepForceCapture (n : Notes) (c : ZCtx) : ZionResp :=
  respond { n with capture_locked := true, stage := "capture" } c triggerIntake

/-- the `START` branch: optionally store a goal hint, then ask the goal
question and advance to stage `goal`. -/
def stepStart (n : Notes) (c : ZCtx) : ZionResp :=
  let g := inferGoal c.message
  let n1 :=
    if g ≠ "" then { n with primary_goal := g }
    else if c.message ≠ "" ∧ isNonAnswer c.message = false then
      { n with primary_goal_raw := clampStr c.message 240 }
    else n
  respond { n1 with stage := promptGoal.stage } c promptGoal

/-- the `GOAL` branch: store the goal (inferred, or raw when the message is
not a non-answer), then ask the business question and advance. -/
def stepGoal (n : Notes) (c : ZCtx) : ZionResp :=
  let g := inferGoal c.message
  let n1 :=
    if g ≠ "" then { n with primary_goal := g }
    else if c.message ≠ "" ∧ isNonAnswer c.message = false then
      { n with primary_goal_raw := clampStr c.message 240 }
    else n
  respond { n1 with stage := promptBusiness.stage } c promptBusiness

/-- the `BUSINESS` branch: store business type inferences, then ask the
metric question and advance. -/
def stepBusiness (n : Notes) (c : ZCtx) : ZionResp :=
  let bt := inferBusinessType c.message
  let n1 := if bt.raw ≠ "" then { n with business_type := bt.raw } else n
  let n2 := if bt.label ≠ "" then { n1 with industry := bt.label } else n1
  let n3 := if bt.buyer ≠ "" then { n2 with buyer := bt.buyer } else n2
  respond { n3 with stage := promptMetric.stage } c promptMetric

/-- the `METRIC` branch: store the target metric, lock capture, emit
`triggerIntake`. -/
def stepMetric (n : Notes) (c : ZCtx) : ZionResp :=
  let tm := inferTargetMetric c.message
  let n1 := if tm.raw ≠ "" then { n with target_metric := tm.raw } else n
  let n2 := match tm.num with
    | some k => { n1 with target_metric_number := some k }
    | none => n1
  let n3 := if tm.unit ≠ "" then { n2 with target_metric_unit := tm.unit } else n2
  respond { n3 with capture_locked := true, stage := triggerIntake.stage } c triggerIntake

/-- the "any unexpected stage" fallback: lock capture and emit
`triggerIntake`. -/
def stepUnknown (n : Notes) (c : ZCtx) : ZionResp :=
  respond { n with capture_locked := true, stage := "capture" } c triggerIntake

/-- the post-capture branch (zion.js line 370): fixed directive reply,
`capture_intent` always `ask_contact`. -/
def stepLocked (n : Notes) (c : ZCtx) : ZionResp :=
  respond { n with stage := "capture", capture_locked := true } c lockedPrompt

/-- the notes-mutation head of the handler: default the stage, bump
`user_inputs`, push the user transcript entry, seed `business_offer`. -/
def zionPre (body : ZionBody) (now : String) : Notes :=
  let message := normalize body.message
  let sid0 := normalize body.session_id
  let session_id := if sid0 = "" then "anon" else sid0
  let turnIn : Int := body.turn.getD 0
  let n0 := body.notes.getD {}
  let n1 := { n0 with session_id := session_id, last_updated_at := now,
                      stage := if n0.stage = "" then "start" else n0.stage }
  let n2 := { n1 with user_inputs := n1.user_inputs + 1 }
  let n3 := { n2 with transcript :=
      n2.transcript ++ [{ turn := turnIn, user := some (clampStr message 500), zion := none, atIso := now }] }
  if n3.business_offer = "" ∧ message ≠ "" then
    { n3 with business_offer := clampStr message 240 }
  else n3

/-- per-request message / turn-counter / timestamp context of one call. -/
def zionCtx (body : ZionBody) (now : String) : ZCtx :=
  { message := normalize body.message, turnIn := body.turn.getD 0, now := now }

/-- one POST turn of the zion.js handler (after method dispatch and body
decoding).  The source tests the hard caps and stage machine only when not
capture-locked and otherwise falls through to the post-capture block; the
branch order here is the equivalent `locked`-first dispatch. -/
def zionStep (body : ZionBody) (now : String) : ZionResp :=
  let c : ZCtx := zionCtx body now
  let n4 := zionPre body now
  let locked := n4.capture_locked = true ∨ n4.stage = "capture"
  if locked then stepLocked n4 c
  else if n4.user_inputs ≥ 6 then stepForceCapture n4 c
  else if n4.user_inputs ≥ 10 then stepForceCapture n4 c
  else if n4.stage = "start" then stepStart n4 c
  else if n4.stage = "goal" then stepGoal n4 c
  else if n4.stage = "business" then stepBusiness n4 c
  else if n4.stage = "metric" then stepMetric n4 c
  else stepUnknown n4 c

/-- the POST path of the zion endpoint including body decoding: a missing,
non-JSON or non-object body yields `{}` (`JSON.parse` fallback + `safeObj`),
modelled as `none`. -/
def zionPost (body : Option ZionBody) (now : String) : ZionResp :=
  zionStep (body.getD {}) now

/-- position of a stage string in the fixed forward sequence
`start → goal → business → metric → capture`; strings outside the sequence
(including the absent-stage default `""`) sit at the start. -/
def stageRank (s : String) : Nat :=
  if s = "goal" then 1
  else if s = "business" then 2
  else if s = "metric" then 3
  else if s = "capture" then 4
  else 0

/-- iterated dialogue turns: thread `notes` and `turn` through a list of
(message, timestamp) pairs, collecting each turn's response. -/
def zionRun (n : Notes) (t : Int) : List (String × String) → List ZionResp
  | [] => []
  | (msg, now) :: rest =>
    let r := zionStep { message := msg, session_id := "", turn := some t, notes := some n } now
    r :: zionRun r.notes r.turn rest

/-! Section: JS values

A small model of the JavaScript values flowing through intake.js and
proposal.js: JSON values plus `undefined` (the result of reading an absent
property).  Numbers are modelled as rationals; `NaN`/`Infinity` do not arise
from `JSON.parse` and are not modelled. -/

inductive JsVal where
  | null
  | undefined
  | bool (b : Bool)
  | num (q : ℚ)
  | str (s : String)
  | arr (elems : List JsVal)
  | obj (fields : List (String × JsVal))

/-- JS truthiness (`!x` negated).  Falsy: `null`, `undefined`, `false`,
`0`, `""`. -/
def truthy : JsVal → Bool
  | .null => false
  | .undefined => false
  | .bool b => b
  | .num q => if q = 0 then false else true
  | .str s => s ≠ ""
  | .arr _ => true
  | .obj _ => true

/-- JS `typeof` (note `typeof null` and `typeof []` are both `"object"`). -/
def jsTypeof : JsVal → String
  | .null => "object"
  | .undefined => "undefined"
  | .bool _ => "boolean"
  | .num _ => "number"
  | .str _ => "string"
  | .arr _ => "object"
  | .obj _ => "object"

/-- property read `x.k`: `undefined` when absent or when `x` is not an
object (the code only reads named properties off objects and arrays). -/
def getField : JsVal → String → JsVal
  | .obj fs, k => ((fs.find? (fun p => p.1 = k)).map (fun p => p.2)).getD .undefined
  | _, _ => .undefined

/-- JS `Array.isArray`. -/
def isArray : JsVal → Bool
  | .arr _ => true
  | _ => false

/-- coercion `(x || "")` for the string-or-absent fields read by the handlers,
then usable with `.trim()`. -/
def strOrEmpty : JsVal → String
  | .str s => s
  | _ => ""

/-! Section: intake.js — proposal generation and intake handler -/

/-- function `validateProposalShape` from intake.js, per-tier loop body:
object, non-empty string `name`, numeric `price_monthly`, array `scope`. -/
def tierOk (t : JsVal) : Bool :=
  (truthy t && jsTypeof t = "object") &&
  (truthy (getField t ("name")) && jsTypeof (getField t ("name")) = "string") &&
  jsTypeof (getField t ("price_monthly")) = "number" &&
  isArray (getField t ("scope"))

/-- function `validateProposalShape` from intake.js: object with non-empty string
`executive_summary` and `tiers` an array of exactly 3 objects passing
`tierOk`. -/
def validateProposalShape (o : JsVal) : Bool :=
  if ¬ truthy o then false
  else if jsTypeof o ≠ "object" then false
  else if ¬ truthy (getField o ("executive_summary")) then false
  else if jsTypeof (getField o ("executive_summary")) ≠ "string" then false
  else
    match getField o ("tiers") with
    | .arr ts => decide (ts.length = 3) && ts.all tierOk
    | _ => false

/-- function `extractFirstJsonObject` from intake.js: substring between the first
`U+007B` and the last `U+007D`, handed to `JSON.parse` (the external parser
`p`; `none` models a parse exception). -/
def extractFirstJsonObject (p : String → Option JsVal) (text : String) : Option JsVal :=
  if text = "" then none
  else
    let lb := Char.ofNat 123
    let rb := Char.ofNat 125
    let cs := text.data
    match cs.findIdx? (fun c => c = lb), (cs.reverse.findIdx? (fun c => c = rb)) with
    | some start, some j =>
      let stop := cs.length - 1 - j
      if stop ≤ start then none
      else p (String.mk ((cs.drop start).take (stop + 1 - start)))
    | _, _ => none

/-- the parse step of both generation attempts: strict `JSON.parse`, falling
back to `extractFirstJsonObject` on a parse exception. -/
def parseLoose (p : String → Option JsVal) (t : String) : Option JsVal :=
  match p t with
  | some v => some v
  | none => extractFirstJsonObject p t

/-- the error thrown when both attempts fail, carrying both raw outputs
(intake.js lines 215-218). -/
structure GenFail where
  message : String
  raw1 : String
  raw2 : String
deriving DecidableEq

/-- errors escaping `generateProposalStrict` and its neighbours: plain
`Error(msg)` throws (no `raw1`/`raw2` fields) or the two-raw-output failure. -/
inductive IntakeErr where
  | envErr (msg : String)
  | genErr (g : GenFail)

/-- function `generateProposalStrict` from intake.js.  External inputs: `keyPresent`
(whether `GEMINI_API_KEY` is set), the JSON parser `p`, and the two raw
texts `t1raw`, `t2raw` returned by the text-generation API for the first
attempt and the repair attempt (`(r?.response?.text?.() || "")` before
trimming).  Each attempt is parsed (strict, then brace extraction) and
validated; success returns the object with that attempt's raw text,
otherwise the call fails carrying both raw outputs. -/
def generateProposalStrict (keyPresent : Bool) (p : String → Option JsVal)
    (t1raw t2raw : String) : Except IntakeErr (JsVal × String) :=
  if ¬ keyPresent then .error (.envErr ("GEMINI_API_KEY missing"))
  else
    let t1 := jsTrim t1raw
    let attempt2 : Except IntakeErr (JsVal × String) :=
      let t2 := jsTrim t2raw
      match parseLoose p t2 with
      | some obj =>
        if truthy obj && validateProposalShape obj then .ok (obj, t2)
        else .error (.genErr { message := "Gemini returned non-JSON proposal", raw1 := t1, raw2 := t2 })
      | none => .error (.genErr { message := "Gemini returned non-JSON proposal", raw1 := t1, raw2 := t2 })
    match parseLoose p t1 with
    | some obj =>
      if truthy obj && validateProposalShape obj then .ok (obj, t1)
      else attempt2
    | none => attempt2

/-- function `makePid` from intake.js: `Math.random().toString(16).slice(2, 10).toUpperCase()`.
The draw is modelled by its base-16 string representation (e.g.
`"0.a1b2c3d4e5"`); `slice(2, 10)` drops the leading `0.`. -/
def makePid (randHex : String) : String :=
  jsUpper (String.mk ((randHex.data.drop 2).take 8))

/-- external outcomes of one intake request: CRM webhook, text-generation
API, and the two KV writes.  `none` = the call succeeds; `some msg` = the
call throws with that message (for `ghl` this covers both the missing
`GHL_WEBHOOK_URL` and a rejected POST). -/
structure IntakeWorld where
  geminiKey : Bool
  p : String → Option JsVal
  t1 : String
  t2 : String
  ghl : Option String
  kvMain : Option String
  kvFailRec : Option String

/-- observable outcome of one intake request: HTTP status, response flags,
the pid generated for the request (exposed in the body only on success),
whether the CRM forward succeeded (it is never undone), and the KV writes
that succeeded (key, stored document). -/
structure IntakeResult where
  status : Nat
  ok : Bool
  pid : Option String
  error : Option String
  crmForwarded : Bool
  kvWrites : List (String × JsVal)

/-- value `e?.raw1 || null` in the failure record: an empty raw string is falsy
and stored as `null`. -/
def rawOrNull (s : String) : JsVal :=
  if s = "" then .null else .str s

/-- message of a thrown error (`e?.message || "Server error"`). -/
def errMessage : IntakeErr → String
  | .envErr m => m
  | .genErr g => g.message

/-- the catch block of the intake handler: best-effort store of a failure
record under `proposal_fail:{pid}` (its own failure swallowed), then a 500
`ok:false` response. -/
def intakeCatch (w : IntakeWorld) (b : JsVal) (pid now msg : String)
    (r1 r2 : JsVal) (crm : Bool) : IntakeResult :=
  let failRec := JsVal.obj
    [("pid", .str pid), ("created_at", .str now), ("intake", b),
     ("error", .str msg), ("raw1", r1), ("raw2", r2)]
  let writes := match w.kvFailRec with
    | none => [("proposal_fail:" ++ pid, failRec)]
    | some _ => []
  { status := 500, ok := false, pid := some pid,
    error := some (if msg = "" then "Server error" else msg),
    crmForwarded := crm, kvWrites := writes }

/-- the intake.js handler.  `body = none` models an unparseable JSON body
(`readJson` returned `null`).  The modelled domain takes `body.email` as a
string or absent (a non-string truthy `email` would throw before the try
block in the source).  `randHex` is the `Math.random()` draw for `makePid`;
`now` the clock. -/
def intakeHandler (w : IntakeWorld) (method : String) (body : Option JsVal)
    (randHex now : String) : IntakeResult :=
  if method = "OPTIONS" then
    { status := 200, ok := true, pid := none, error := none, crmForwarded := false, kvWrites := [] }
  else if method ≠ "POST" then
    { status := 405, ok := false, pid := none, error := some ("Use POST"), crmForwarded := false, kvWrites := [] }
  else
    match body with
    | none =>
      { status := 400, ok := false, pid := none, error := some ("Invalid JSON body"), crmForwarded := false, kvWrites := [] }
    | some b =>
      let email := jsTrim (strOrEmpty (getField b ("email")))
      if email = "" then
        { status := 400, ok := false, pid := none, error := some ("Missing email"), crmForwarded := false, kvWrites := [] }
      else
        let pid := makePid randHex
        -- try block: GHL forward, then strict generation, then KV store
        match w.ghl with
        | some m => intakeCatch w b pid now m .null .null false
        | none =>
          match generateProposalStrict w.geminiKey w.p w.t1 w.t2 with
          | .error (.envErr m) => intakeCatch w b pid now m .null .null true
          | .error (.genErr g) =>
            intakeCatch w b pid now g.message (rawOrNull g.raw1) (rawOrNull g.raw2) true
          | .ok (proposal, _raw) =>
            let record := JsVal.obj
              [("pid", .str pid), ("created_at", .str now), ("intake", b), ("proposal", proposal)]
            match w.kvMain with
            | some m => intakeCatch w b pid now m .null .null true
            | none =>
              { status := 200, ok := true, pid := some pid, error := none,
                crmForwarded := true, kvWrites := [("proposal:" ++ pid, record)] }

/-! Section: proposal.js — fetch stored proposal by pid -/

/-- the `result` extraction of `kvGetJson`:
`Array.isArray(data) && data[0] ? data[0].result : null`. -/
def pipeResult (data : JsVal) : JsVal :=
  match data with
  | .arr (d0 :: _) => if truthy d0 then getField d0 ("result") else .null
  | _ => .null

/-- function `kvGetJson` from proposal.js given the JSON-decoded pipeline response:
a falsy result means absent/expired → JS `null`; otherwise the stored string
is parsed, a parse exception again yielding `null`.  (The KV REST `GET`
result is a string or `null`; other value kinds do not arise.) -/
def kvGetJson (p : String → Option JsVal) (data : JsVal) : JsVal :=
  let result := pipeResult data
  if ¬ truthy result then .null
  else
    match result with
    | .str s => match p s with
      | some v => v
      | none => .null
    | _ => .null

/-- response of the proposal endpoint. -/
structure PResult where
  status : Nat
  ok : Bool
  error : Option String
deriving DecidableEq

/-- the proposal.js handler.  `pidRaw` is `url.searchParams.get("pid") || ""`;
`pipe` the outcome of the KV pipeline call (`.error m` = `kvPipeline` threw,
caught by the handler's try). -/
def proposalHandler (p : String → Option JsVal) (method : String)
    (pidRaw : String) (pipe : Except String JsVal) : PResult :=
  if method = "OPTIONS" then { status := 200, ok := true, error := none }
  else if method ≠ "GET" then { status := 405, ok := false, error := some ("Use GET") }
  else
    let pid := jsTrim pidRaw
    if pid = "" then { status := 400, ok := false, error := some ("Missing pid") }
    else
      match pipe with
      | .error m =>
        { status := 500, ok := false, error := some (if m = "" then "Server error" else m) }
      | .ok data =>
        let record := kvGetJson p data
        if ¬ truthy record then
          { status := 404, ok := false, error := some ("Proposal not found (expired or invalid pid)") }
        else { status := 200, ok := true, error := none }

/-- the pipeline response shape for an absent or expired key:
`[{"result": null}]`. -/
def pipeNullResp : JsVal := .arr [.obj [("result", .null)]]

/-! Section: concrete inputs used by counterexamples and witnesses -/

/-- successor in the fixed stage sequence
`start → goal → business → metric → capture`. -/
def nextStage (s : String) : String :=
  if s = "start" then "goal"
  else if s = "goal" then "business"
  else if s = "business" then "metric"
  else "capture"

/-- the deterministic `next_question` text issued when the machine is at the
given stage. -/
def questionOf (s : String) : String :=
  if s = "goal" then promptGoal.next_question
  else if s = "business" then promptBusiness.next_question
  else if s = "metric" then promptMetric.next_question
  else triggerIntake.next_question

/-- Bool success test for `Except`. -/
def exceptOk {α β : Type} : Except α β → Bool
  | .ok _ => true
  | .error _ => false

/-- first dialogue turn of the low-signal scenario: fresh session, an
ordinary first message. -/
def cexBody1 : ZionBody :=
  { message := "hello there", session_id := "s", turn := some 0, notes := none }

def cexR1 : ZionResp := zionStep cexBody1 ("t1")

/-- second turn: the low-signal acknowledgement token `"ok"` sent while the
notes stand at stage `goal`. -/
def cexBody2 : ZionBody :=
  { message := "ok", session_id := "s", turn := some cexR1.turn, notes := some cexR1.notes }

def cexR2 : ZionResp := zionStep cexBody2 ("t2")

/-- three-turn fresh-session run with non-low-signal answers (claim C3). -/
def c3r1 : ZionResp :=
  zionStep { message := "we need more leads", session_id := "s", turn := some 0, notes := none } ("t1")

def c3r2 : ZionResp :=
  zionStep { message := "landscaping services for homeowners", session_id := "s",
             turn := some c3r1.turn, notes := some c3r1.notes } ("t2")

def c3r3 : ZionResp :=
  zionStep { message := "20 leads per month", session_id := "s",
             turn := some c3r2.turn, notes := some c3r2.notes } ("t3")

/-- the 4th turn of the fresh-session run. -/
def c3r4 : ZionResp :=
  zionStep { message := "lets go", session_id := "s",
             turn := some c3r3.turn, notes := some c3r3.notes } ("t4")

/-- concrete capture-locked notes. -/
def w4notes : Notes := { stage := "capture", capture_locked := true }

def w4body : ZionBody :=
  { message := "hello", session_id := "s", turn := some 5, notes := some w4notes }

/-- concrete notes standing at stage `goal` after one turn. -/
def w2notes : Notes := { stage := "goal", user_inputs := 1 }

def w2body : ZionBody :=
  { message := "ok", session_id := "s", turn := some 1, notes := some w2notes }

/-- a tier of the shape the intake.js schema asks for. -/
def goodTier (nm : String) (q : ℚ) : JsVal :=
  .obj [("name", .str nm), ("price_monthly", .num q), ("scope", .arr [])]

/-- a proposal document passing `validateProposalShape`. -/
def goodProposal : JsVal :=
  .obj [("executive_summary", .str ("Executive summary.")),
        ("tiers", .arr [goodTier ("Ignite") 950, goodTier ("Elevate") 1450, goodTier ("Luminary") 2250])]

/-- a parser producing the valid proposal for the raw text `"T1"`. -/
def pGood : String → Option JsVal := fun s => if s = "T1" then some goodProposal else none

/-- a parser that always throws. -/
def pNone : String → Option JsVal := fun _ => none

/-- world where CRM forwarding and generation succeed but the main KV write
throws. -/
def wKvFail : IntakeWorld :=
  { geminiKey := true, p := pGood, t1 := "T1", t2 := "", ghl := none,
    kvMain := some ("KV pipeline failed: HTTP 500"), kvFailRec := none }

/-- world where every external call succeeds. -/
def wOK : IntakeWorld :=
  { geminiKey := true, p := pGood, t1 := "T1", t2 := "", ghl := none,
    kvMain := none, kvFailRec := none }

/-- world where both generation attempts return unparseable text. -/
def wGenFail : IntakeWorld :=
  { geminiKey := true, p := pNone, t1 := "bad output", t2 := "still bad", ghl := none,
    kvMain := none, kvFailRec := none }

def bodyA : JsVal := .obj [("email", .str ("a@b.com"))]

def bodyB : JsVal := .obj [("email", .str ("c@d.com"))]

/-- a tier carrying its numeric monthly price under the alternate historical
field name instead of `price_monthly`. -/
def altTier : JsVal :=
  .obj [("name", .str ("Ignite")), ("monthly_price", .num 950), ("scope", .arr [])]

/-- an otherwise well-formed proposal whose tiers use the alternate price
field name. -/
def altProposal : JsVal :=
  .obj [("executive_summary", .str ("Executive summary.")),
        ("tiers", .arr [altTier, altTier, altTier])]

/-- well-formed tier built with the `price_monthly` field name. -/
def mkTier (nm : String) (q : ℚ) (scope : List JsVal) : JsVal :=
  .obj [("name", .str nm), ("price_monthly", .num q), ("scope", .arr scope)]

/-- well-formed proposal candidate with three tiers. -/
def mkProposal (s n1 n2 n3 : String) (q1 q2 q3 : ℚ) (s1 s2 s3 : List JsVal) : JsVal :=
  .obj [("executive_summary", .str s),
        ("tiers", .arr [mkTier n1 q1 s1, mkTier n2 q2 s2, mkTier n3 q3 s3])]

/-- number of tiers carried by a candidate document (0 when `tiers` is not
an array). -/
def tiersCount (o : JsVal) : Nat :=
  match getField o ("tiers") with
  | .arr ts => ts.length
  | _ => 0

/-! Section: helper lemmas: zion.js -/

theorem respond_status (n : Notes) (c : ZCtx) (out : ZPrompt) : (respond n c out).status = 200 := rfl

theorem respond_turn (n : Notes) (c : ZCtx) (out : ZPrompt) : (respond n c out).turn = c.turnIn + 1 := rfl

theorem zionStep_status (body : ZionBody) (now : String) : (zionStep body now).status = 200 := by
  dsimp only [zionStep]
  split_ifs <;> rfl

theorem zionStep_turn (body : ZionBody) (now : String) :
    (zionStep body now).turn = body.turn.getD 0 + 1 := by
  dsimp only [zionStep]
  split_ifs <;> rfl

theorem zionPre_locked (body : ZionBody) (now : String) :
    (zionPre body now).capture_locked = (body.notes.getD {}).capture_locked := by
  dsimp only [zionPre]
  split <;> rfl

theorem zionPre_stage (body : ZionBody) (now : String) :
    (zionPre body now).stage =
      (if (body.notes.getD {}).stage = "" then "start" else (body.notes.getD {}).stage) := by
  dsimp only [zionPre]
  split <;> rfl

theorem zionPre_ui (body : ZionBody) (now : String) :
    (zionPre body now).user_inputs = (body.notes.getD {}).user_inputs + 1 := by
  dsimp only [zionPre]
  split <;> rfl

theorem zionPre_transcript (body : ZionBody) (now : String) :
    (zionPre body now).transcript =
      (body.notes.getD {}).transcript ++
        [{ turn := body.turn.getD 0, user := some (clampStr (normalize body.message) 500),
           zion := none, atIso := now }] := by
  dsimp only [zionPre]
  split <;> rfl

theorem zionStep_eq_locked (body : ZionBody) (now : String)
    (h : (body.notes.getD {}).capture_locked = true ∨ (body.notes.getD {}).stage = "capture") :
    zionStep body now = stepLocked (zionPre body now) (zionCtx body now) := by
  have hc : (zionPre body now).capture_locked = true ∨ (zionPre body now).stage = "capture" := by
    rcases h with h | h
    · exact Or.inl (by rw [zionPre_locked, h])
    · refine Or.inr ?_
      rw [zionPre_stage, h]
      simp
  dsimp only [zionStep]
  rw [if_pos hc]

theorem zionStep_eq_force (body : ZionBody) (now : String)
    (hL : (body.notes.getD {}).capture_locked = false)
    (hs : (body.notes.getD {}).stage ≠ "capture")
    (hcap : (body.notes.getD {}).user_inputs + 1 ≥ 6) :
    zionStep body now = stepForceCapture (zionPre body now) (zionCtx body now) := by
  have hc : ¬ ((zionPre body now).capture_locked = true ∨ (zionPre body now).stage = "capture") := by
    rw [zionPre_locked, zionPre_stage, hL]
    rintro (h | h)
    · exact Bool.false_ne_true h
    · revert h
      split
      · simp
      · exact hs
  have hui : (zionPre body now).user_inputs ≥ 6 := by rw [zionPre_ui]; exact hcap
  dsimp only [zionStep]
  rw [if_neg hc, if_pos hui]

theorem zionStep_eq_start (body : ZionBody) (now : String)
    (hL : (body.notes.getD {}).capture_locked = false)
    (hs : (body.notes.getD {}).stage = "" ∨ (body.notes.getD {}).stage = "start")
    (hcap : (body.notes.getD {}).user_inputs + 1 < 6) :
    zionStep body now = stepStart (zionPre body now) (zionCtx body now) := by
  have hst : (zionPre body now).stage = "start" := by
    rw [zionPre_stage]
    rcases hs with h | h <;> rw [h] <;> simp
  have hc : ¬ ((zionPre body now).capture_locked = true ∨ (zionPre body now).stage = "capture") := by
    rw [zionPre_locked, hL, hst]
    rintro (h | h)
    · exact Bool.false_ne_true h
    · exact absurd h (by decide)
  have hui : ¬ (zionPre body now).user_inputs ≥ 6 := by rw [zionPre_ui]; omega
  have hui10 : ¬ (zionPre body now).user_inputs ≥ 10 := by rw [zionPre_ui]; omega
  dsimp only [zionStep]
  rw [if_neg hc, if_neg hui, if_neg hui10, if_pos hst]

theorem zionStep_eq_goal (body : ZionBody) (now : String)
    (hL : (body.notes.getD {}).capture_locked = false)
    (hs : (body.notes.getD {}).stage = "goal")
    (hcap : (body.notes.getD {}).user_inputs + 1 < 6) :
    zionStep body now = stepGoal (zionPre body now) (zionCtx body now) := by
  have hst : (zionPre body now).stage = "goal" := by
    rw [zionPre_stage, hs]; simp
  have hc : ¬ ((zionPre body now).capture_locked = true ∨ (zionPre body now).stage = "capture") := by
    rw [zionPre_locked, hL, hst]
    rintro (h | h)
    · exact Bool.false_ne_true h
    · exact absurd h (by decide)
  have hui : ¬ (zionPre body now).user_inputs ≥ 6 := by rw [zionPre_ui]; omega
  have hui10 : ¬ (zionPre body now).user_inputs ≥ 10 := by rw [zionPre_ui]; omega
  dsimp only [zionStep]
  rw [if_neg hc, if_neg hui, if_neg hui10, if_neg (by rw [hst]; decide), if_pos hst]

theorem zionStep_eq_business (body : ZionBody) (now : String)
    (hL : (body.notes.getD {}).capture_locked = false)
    (hs : (body.notes.getD {}).stage = "business")
    (hcap : (body.notes.getD {}).user_inputs + 1 < 6) :
    zionStep body now = stepBusiness (zionPre body now) (zionCtx body now) := by
  have hst : (zionPre body now).stage = "business" := by
    rw [zionPre_stage, hs]; simp
  have hc : ¬ ((zionPre body now).capture_locked = true ∨ (zionPre body now).stage = "capture") := by
    rw [zionPre_locked, hL, hst]
    rintro (h | h)
    · exact Bool.false_ne_true h
    · exact absurd h (by decide)
  have hui : ¬ (zionPre body now).user_inputs ≥ 6 := by rw [zionPre_ui]; omega
  have hui10 : ¬ (zionPre body now).user_inputs ≥ 10 := by rw [zionPre_ui]; omega
  dsimp only [zionStep]
  rw [if_neg hc, if_neg hui, if_neg hui10, if_neg (by rw [hst]; decide),
      if_neg (by rw [hst]; decide), if_pos hst]

theorem zionStep_eq_metric (body : ZionBody) (now : String)
    (hL : (body.notes.getD {}).capture_locked = false)
    (hs : (body.notes.getD {}).stage = "metric")
    (hcap : (body.notes.getD {}).user_inputs + 1 < 6) :
    zionStep body now = stepMetric (zionPre body now) (zionCtx body now) := by
  have hst : (zionPre body now).stage = "metric" := by
    rw [zionPre_stage, hs]; simp
  have hc : ¬ ((zionPre body now).capture_locked = true ∨ (zionPre body now).stage = "capture") := by
    rw [zionPre_locked, hL, hst]
    rintro (h | h)
    · exact Bool.false_ne_true h
    · exact absurd h (by decide)
  have hui : ¬ (zionPre body now).user_inputs ≥ 6 := by rw [zionPre_ui]; omega
  have hui10 : ¬ (zionPre body now).user_inputs ≥ 10 := by rw [zionPre_ui]; omega
  dsimp only [zionStep]
  rw [if_neg hc, if_neg hui, if_neg hui10, if_neg (by rw [hst]; decide),
      if_neg (by rw [hst]; decide), if_neg (by rw [hst]; decide), if_pos hst]

theorem zionStep_eq_unknown (body : ZionBody) (now : String)
    (hL : (body.notes.getD {}).capture_locked = false)
    (h0 : (body.notes.getD {}).stage ≠ "") (h1 : (body.notes.getD {}).stage ≠ "start")
    (h2 : (body.notes.getD {}).stage ≠ "goal") (h3 : (body.notes.getD {}).stage ≠ "business")
    (h4 : (body.notes.getD {}).stage ≠ "metric") (h5 : (body.notes.getD {}).stage ≠ "capture")
    (hcap : (body.notes.getD {}).user_inputs + 1 < 6) :
    zionStep body now = stepUnknown (zionPre body now) (zionCtx body now) := by
  have hst : (zionPre body now).stage = (body.notes.getD {}).stage := by
    rw [zionPre_stage, if_neg h0]
  have hc : ¬ ((zionPre body now).capture_locked = true ∨ (zionPre body now).stage = "capture") := by
    rw [zionPre_locked, hL, hst]
    rintro (h | h)
    · exact Bool.false_ne_true h
    · exact h5 h
  have hui : ¬ (zionPre body now).user_inputs ≥ 6 := by rw [zionPre_ui]; omega
  have hui10 : ¬ (zionPre body now).user_inputs ≥ 10 := by rw [zionPre_ui]; omega
  dsimp only [zionStep]
  rw [if_neg hc, if_neg hui, if_neg hui10, if_neg (by rw [hst]; exact h1),
      if_neg (by rw [hst]; exact h2), if_neg (by rw [hst]; exact h3),
      if_neg (by rw [hst]; exact h4)]

theorem stepLocked_fields (n : Notes) (c : ZCtx) :
    (stepLocked n c).capture_intent = "ask_contact" ∧
    (stepLocked n c).next_question = lockedPrompt.next_question ∧
    (stepLocked n c).notes.capture_locked = true ∧
    (stepLocked n c).notes.stage = "capture" ∧
    (stepLocked n c).notes.transcript =
      n.transcript ++ [{ turn := c.turnIn + 1, user := none, zion := some lockedPrompt.reply, atIso := c.now }] :=
  ⟨rfl, rfl, rfl, rfl, rfl⟩

theorem stepForceCapture_fields (n : Notes) (c : ZCtx) :
    (stepForceCapture n c).capture_intent = "ask_contact" ∧
    (stepForceCapture n c).next_question = triggerIntake.next_question ∧
    (stepForceCapture n c).notes.capture_locked = true ∧
    (stepForceCapture n c).notes.stage = "capture" ∧
    (stepForceCapture n c).notes.transcript =
      n.transcript ++ [{ turn := c.turnIn + 1, user := none, zion := some triggerIntake.reply, atIso := c.now }] :=
  ⟨rfl, rfl, rfl, rfl, rfl⟩

theorem stepUnknown_fields (n : Notes) (c : ZCtx) :
    (stepUnknown n c).capture_intent = "ask_contact" ∧
    (stepUnknown n c).next_question = triggerIntake.next_question ∧
    (stepUnknown n c).notes.capture_locked = true ∧
    (stepUnknown n c).notes.stage = "capture" ∧
    (stepUnknown n c).notes.transcript =
      n.transcript ++ [{ turn := c.turnIn + 1, user := none, zion := some triggerIntake.reply, atIso := c.now }] :=
  ⟨rfl, rfl, rfl, rfl, rfl⟩

theorem stepStart_fields (n : Notes) (c : ZCtx) :
    (stepStart n c).capture_intent = "none" ∧
    (stepStart n c).next_question = promptGoal.next_question ∧
    (stepStart n c).notes.stage = "goal" ∧
    (stepStart n c).notes.capture_locked = n.capture_locked ∧
    (stepStart n c).notes.user_inputs = n.user_inputs ∧
    (stepStart n c).notes.transcript =
      n.transcript ++ [{ turn := c.turnIn + 1, user := none, zion := some promptGoal.reply, atIso := c.now }] := by
  dsimp only [stepStart, respond]
  split_ifs <;> exact ⟨rfl, rfl, rfl, rfl, rfl, rfl⟩

theorem stepGoal_fields (n : Notes) (c : ZCtx) :
    (stepGoal n c).capture_intent = "none" ∧
    (stepGoal n c).next_question = promptBusiness.next_question ∧
    (stepGoal n c).notes.stage = "business" ∧
    (stepGoal n c).notes.capture_locked = n.capture_locked ∧
    (stepGoal n c).notes.user_inputs = n.user_inputs ∧
    (stepGoal n c).notes.transcript =
      n.transcript ++ [{ turn := c.turnIn + 1, user := none, zion := some promptBusiness.reply, atIso := c.now }] := by
  dsimp only [stepGoal, respond]
  split_ifs <;> exact ⟨rfl, rfl, rfl, rfl, rfl, rfl⟩

theorem stepBusiness_fields (n : Notes) (c : ZCtx) :
    (stepBusiness n c).capture_intent = "none" ∧
    (stepBusiness n c).next_question = promptMetric.next_question ∧
    (stepBusiness n c).notes.stage = "metric" ∧
    (stepBusiness n c).notes.capture_locked = n.capture_locked ∧
    (stepBusiness n c).notes.user_inputs = n.user_inputs ∧
    (stepBusiness n c).notes.transcript =
      n.transcript ++ [{ turn := c.turnIn + 1, user := none, zion := some promptMetric.reply, atIso := c.now }] := by
  dsimp only [stepBusiness, respond]
  split_ifs <;> exact ⟨rfl, rfl, rfl, rfl, rfl, rfl⟩

theorem stepMetric_fields (n : Notes) (c : ZCtx) :
    (stepMetric n c).capture_intent = "ask_contact" ∧
    (stepMetric n c).next_question = triggerIntake.next_question ∧
    (stepMetric n c).notes.stage = "capture" ∧
    (stepMetric n c).notes.capture_locked = true ∧
    (stepMetric n c).notes.transcript =
      n.transcript ++ [{ turn := c.turnIn + 1, user := none, zion := some triggerIntake.reply, atIso := c.now }] := by
  dsimp only [stepMetric, respond]
  cases hnum : (inferTargetMetric c.message).num <;>
    · dsimp only
      split_ifs <;> exact ⟨rfl, rfl, rfl, rfl, rfl⟩

theorem stageRank_le_four (s : String) : stageRank s ≤ 4 := by
  dsimp only [stageRank]
  split_ifs <;> omega

theorem zionStep_locked_resp (body : ZionBody) (now : String)
    (h : (body.notes.getD {}).capture_locked = true) :
    (zionStep body now).capture_intent = "ask_contact" ∧
    (zionStep body now).notes.capture_locked = true := by
  rw [zionStep_eq_locked body now (Or.inl h)]
  exact ⟨(stepLocked_fields _ _).1, (stepLocked_fields _ _).2.2.1⟩

theorem zionRun_locked (msgs : List (String × String)) :
    ∀ (n : Notes) (t : Int), n.capture_locked = true →
      ∀ r ∈ zionRun n t msgs, r.capture_intent = "ask_contact" := by
  induction msgs with
  | nil => intro n t _ r hr; simp [zionRun] at hr
  | cons m rest ih =>
    intro n t h r hr
    obtain ⟨msg, now⟩ := m
    dsimp only [zionRun] at hr
    rcases List.mem_cons.mp hr with h1 | h1
    · subst h1
      exact (zionStep_locked_resp
        { message := msg, session_id := "", turn := some t, notes := some n } now (by exact h)).1
    · exact ih _ _ ((zionStep_locked_resp
        { message := msg, session_id := "", turn := some t, notes := some n } now (by exact h)).2) r h1

/-! Section: claim theorems: dialogue engine -/

/-- C10: every POST to the dialogue endpoint — including one whose body is
missing, non-JSON or not an object (decoded as `none`, treated as an empty
message on a fresh session) — is answered with HTTP 200 and a `turn` equal
to the numeric input turn plus 1 (a non-numeric input turn counting as 0);
no POST ever receives a 4xx validation error. -/
theorem zionPost_always_200 (b : Option ZionBody) (now : String) :
    (zionPost b now).status = 200 ∧
    (zionPost b now).turn = ((b.getD {}).turn.getD 0) + 1 :=
  ⟨zionStep_status _ _, zionStep_turn _ _⟩

/-- C4 (invariants of one dialogue step): a `capture_locked` input stays
locked in the output; the output stage is never earlier than the input
stage in the fixed sequence `start → goal → business → metric → capture`
(strings outside the sequence rank at the start); and the output transcript
is the input transcript with entries appended, never removed or reordered. -/
theorem zionStep_invariants (body : ZionBody) (now : String) :
    ((body.notes.getD {}).capture_locked = true → (zionStep body now).notes.capture_locked = true) ∧
    stageRank (body.notes.getD {}).stage ≤ stageRank (zionStep body now).notes.stage ∧
    ∃ app, (zionStep body now).notes.transcript = (body.notes.getD {}).transcript ++ app := by
  have htr := zionPre_transcript body now
  by_cases hLock : (body.notes.getD {}).capture_locked = true ∨ (body.notes.getD {}).stage = "capture"
  · rw [zionStep_eq_locked body now hLock]
    refine ⟨fun _ => (stepLocked_fields _ _).2.2.1, ?_, ?_⟩
    · rw [(stepLocked_fields _ _).2.2.2.1]
      exact stageRank_le_four _
    · exact ⟨_, by rw [(stepLocked_fields _ _).2.2.2.2, htr, List.append_assoc]⟩
  · push_neg at hLock
    obtain ⟨hL', hs'⟩ := hLock
    have hL : (body.notes.getD {}).capture_locked = false := by
      cases hcl : (body.notes.getD {}).capture_locked
      · rfl
      · exact absurd hcl hL'
    by_cases hcap : (body.notes.getD {}).user_inputs + 1 ≥ 6
    · rw [zionStep_eq_force body now hL hs' hcap]
      refine ⟨fun _ => (stepForceCapture_fields _ _).2.2.1, ?_, ?_⟩
      · rw [(stepForceCapture_fields _ _).2.2.2.1]
        exact stageRank_le_four _
      · exact ⟨_, by rw [(stepForceCapture_fields _ _).2.2.2.2, htr, List.append_assoc]⟩
    · have hcap' : (body.notes.getD {}).user_inputs + 1 < 6 := by omega
      by_cases h0 : (body.notes.getD {}).stage = ""
      · rw [zionStep_eq_start body now hL (Or.inl h0) hcap']
        refine ⟨fun hcl => absurd hcl hL', ?_, ?_⟩
        · rw [(stepStart_fields _ _).2.2.1, h0]
          decide
        · exact ⟨_, by rw [(stepStart_fields _ _).2.2.2.2.2, htr, List.append_assoc]⟩
      · by_cases h1 : (body.notes.getD {}).stage = "start"
        · rw [zionStep_eq_start body now hL (Or.inr h1) hcap']
          refine ⟨fun hcl => absurd hcl hL', ?_, ?_⟩
          · rw [(stepStart_fields _ _).2.2.1, h1]
            decide
          · exact ⟨_, by rw [(stepStart_fields _ _).2.2.2.2.2, htr, List.append_assoc]⟩
        · by_cases h2 : (body.notes.getD {}).stage = "goal"
          · rw [zionStep_eq_goal body now hL h2 hcap']
            refine ⟨fun hcl => absurd hcl hL', ?_, ?_⟩
            · rw [(stepGoal_fields _ _).2.2.1, h2]
              decide
            · exact ⟨_, by rw [(stepGoal_fields _ _).2.2.2.2.2, htr, List.append_assoc]⟩
          · by_cases h3 : (body.notes.getD {}).stage = "business"
            · rw [zionStep_eq_business body now hL h3 hcap']
              refine ⟨fun hcl => absurd hcl hL', ?_, ?_⟩
              · rw [(stepBusiness_fields _ _).2.2.1, h3]
                decide
              · exact ⟨_, by rw [(stepBusiness_fields _ _).2.2.2.2.2, htr, List.append_assoc]⟩
            · by_cases h4 : (body.notes.getD {}).stage = "metric"
              · rw [zionStep_eq_metric body now hL h4 hcap']
                refine ⟨fun hcl => absurd hcl hL', ?_, ?_⟩
                · rw [(stepMetric_fields _ _).2.2.1, h4]
                  decide
                · exact ⟨_, by rw [(stepMetric_fields _ _).2.2.2.2, htr, List.append_assoc]⟩
              · rw [zionStep_eq_unknown body now hL h0 h1 h2 h3 h4 hs' hcap']
                refine ⟨fun hcl => absurd hcl hL', ?_, ?_⟩
                · rw [(stepUnknown_fields _ _).2.2.2.1]
                  exact stageRank_le_four _
                · exact ⟨_, by rw [(stepUnknown_fields _ _).2.2.2.2, htr, List.append_assoc]⟩

/-- C4 witness: the invariants evaluated on a concrete capture-locked
input, discharging the implication's antecedent. -/
theorem zionStep_invariants_witness :
    ((w4body.notes.getD {}).capture_locked = true ∧
      (zionStep w4body ("t")).notes.capture_locked = true) ∧
    stageRank (w4body.notes.getD {}).stage ≤ stageRank (zionStep w4body ("t")).notes.stage ∧
    ∃ app, (zionStep w4body ("t")).notes.transcript = (w4body.notes.getD {}).transcript ++ app :=
  ⟨⟨by decide, (zionStep_invariants w4body ("t")).1 (by decide)⟩,
    (zionStep_invariants w4body ("t")).2.1, (zionStep_invariants w4body ("t")).2.2⟩

/-- C2 counterexample: after a first turn leaving the notes at stage `goal`
(question: the goal question), the low-signal token `"ok"` still advances
the stage to `business`, and the returned `next_question` is the business
question — different from the prior turn's question.  So a low-signal
message does not leave the stage and question unchanged. -/
theorem lowSignal_advances_cex :
    isNonAnswer ("ok") = true ∧
    cexR1.notes.stage = "goal" ∧
    cexR1.notes.capture_locked = false ∧
    cexR1.next_question = promptGoal.next_question ∧
    cexR2.notes.stage = "business" ∧
    cexR2.next_question = promptBusiness.next_question ∧
    cexR2.next_question ≠ cexR1.next_question := by
  decide

/-- C2 amended: in a non-capture stage below the forced-capture cap, a
low-signal message does not leave the stage and question unchanged — the
step still advances the stage to the next state of the fixed sequence and
returns that next stage's question (the low-signal classification only
suppresses storing the raw message into the goal slot). -/
theorem lowSignal_still_advances (body : ZionBody) (now : String)
    (_hlow : isNonAnswer (normalize body.message) = true)
    (hL : (body.notes.getD {}).capture_locked = false)
    (hs : (body.notes.getD {}).stage = "start" ∨ (body.notes.getD {}).stage = "goal" ∨
          (body.notes.getD {}).stage = "business" ∨ (body.notes.getD {}).stage = "metric")
    (hcap : (body.notes.getD {}).user_inputs + 1 < 6) :
    (zionStep body now).notes.stage = nextStage (body.notes.getD {}).stage ∧
    (zionStep body now).next_question = questionOf (nextStage (body.notes.getD {}).stage) := by
  rcases hs with h | h | h | h
  · rw [zionStep_eq_start body now hL (Or.inr h) hcap, h]
    exact ⟨(stepStart_fields _ _).2.2.1, (stepStart_fields _ _).2.1⟩
  · rw [zionStep_eq_goal body now hL h hcap, h]
    exact ⟨(stepGoal_fields _ _).2.2.1, (stepGoal_fields _ _).2.1⟩
  · rw [zionStep_eq_business body now hL h hcap, h]
    exact ⟨(stepBusiness_fields _ _).2.2.1, (stepBusiness_fields _ _).2.1⟩
  · rw [zionStep_eq_metric body now hL h hcap, h]
    exact ⟨(stepMetric_fields _ _).2.2.1, (stepMetric_fields _ _).2.1⟩

/-- C2 witness: the amended statement at a concrete stage-`goal` state and
the concrete low-signal message `"ok"`, with each hypothesis discharged. -/
theorem lowSignal_still_advances_witness :
    (isNonAnswer (normalize w2body.message) = true ∧
     (w2body.notes.getD {}).capture_locked = false ∧
     (w2body.notes.getD {}).stage = "goal" ∧
     (w2body.notes.getD {}).user_inputs + 1 < 6) ∧
    (zionStep w2body ("t")).notes.stage = nextStage (w2body.notes.getD {}).stage ∧
    (zionStep w2body ("t")).next_question = questionOf (nextStage (w2body.notes.getD {}).stage) :=
  ⟨⟨by decide, by decide, by decide, by decide⟩,
    lowSignal_still_advances w2body ("t") (by decide) (by decide) (Or.inr (Or.inl (by decide)))
      (by decide)⟩

/-- C3 counterexample: starting from a fresh session, after exactly 3 turns
with non-low-signal answers the 3rd turn's `capture_intent` is still
`"none"`, not `"ask_contact"` — the machine has only reached the metric
question. -/
theorem thirdTurn_not_capture_cex :
    isNonAnswer ("we need more leads") = false ∧
    isNonAnswer ("landscaping services for homeowners") = false ∧
    isNonAnswer ("20 leads per month") = false ∧
    c3r1.capture_intent = "none" ∧
    c3r2.capture_intent = "none" ∧
    c3r3.capture_intent = "none" ∧
    c3r3.capture_intent ≠ "ask_contact" := by
  decide

/-- C3 amended: from a fresh session with non-low-signal answers the first
three turns answer `capture_intent = "none"`; the 4th turn's response has
`capture_intent = "ask_contact"` and locks capture, and every subsequent
turn keeps answering `"ask_contact"` regardless of the messages sent. -/
theorem capture_on_fourth_turn
    (sid : String) (t0 : Int) (m1 m2 m3 m4 w1 w2 w3 w4 : String)
    (r1 r2 r3 r4 : ZionResp)
    (_hm1 : isNonAnswer (normalize m1) = false)
    (_hm2 : isNonAnswer (normalize m2) = false)
    (_hm3 : isNonAnswer (normalize m3) = false)
    (e1 : r1 = zionStep { message := m1, session_id := sid, turn := some t0, notes := none } w1)
    (e2 : r2 = zionStep { message := m2, session_id := sid, turn := some r1.turn, notes := some r1.notes } w2)
    (e3 : r3 = zionStep { message := m3, session_id := sid, turn := some r2.turn, notes := some r2.notes } w3)
    (e4 : r4 = zionStep { message := m4, session_id := sid, turn := some r3.turn, notes := some r3.notes } w4) :
    r1.capture_intent = "none" ∧ r2.capture_intent = "none" ∧ r3.capture_intent = "none" ∧
    r4.capture_intent = "ask_contact" ∧ r4.notes.capture_locked = true ∧
    ∀ msgs r, r ∈ zionRun r4.notes r4.turn msgs → r.capture_intent = "ask_contact" := by
  -- turn 1: fresh notes, stage defaults to start
  rw [zionStep_eq_start { message := m1, session_id := sid, turn := some t0, notes := none } w1
        (by rfl) (Or.inl (by rfl))
        (by show ({} : Notes).user_inputs + 1 < 6
            decide)] at e1
  have r1stage : r1.notes.stage = "goal" := by rw [e1]; exact (stepStart_fields _ _).2.2.1
  have r1lock : r1.notes.capture_locked = false := by
    rw [e1, (stepStart_fields _ _).2.2.2.1, zionPre_locked]
    rfl
  have r1ui : r1.notes.user_inputs = 1 := by
    rw [e1, (stepStart_fields _ _).2.2.2.2.1, zionPre_ui]
    rfl
  have c1 : r1.capture_intent = "none" := by rw [e1]; exact (stepStart_fields _ _).1
  -- turn 2: stage goal
  rw [zionStep_eq_goal
        { message := m2, session_id := sid, turn := some r1.turn, notes := some r1.notes } w2
        (by simp only [Option.getD_some]; exact r1lock)
        (by simp only [Option.getD_some]; exact r1stage)
        (by simp only [Option.getD_some]; omega)] at e2
  have r2stage : r2.notes.stage = "business" := by rw [e2]; exact (stepGoal_fields _ _).2.2.1
  have r2lock : r2.notes.capture_locked = false := by
    rw [e2, (stepGoal_fields _ _).2.2.2.1, zionPre_locked]
    simp only [Option.getD_some]
    exact r1lock
  have r2ui : r2.notes.user_inputs = 2 := by
    rw [e2, (stepGoal_fields _ _).2.2.2.2.1, zionPre_ui]
    simp only [Option.getD_some]
    omega
  have c2 : r2.capture_intent = "none" := by rw [e2]; exact (stepGoal_fields _ _).1
  -- turn 3: stage business
  rw [zionStep_eq_business
        { message := m3, session_id := sid, turn := some r2.turn, notes := some r2.notes } w3
        (by simp only [Option.getD_some]; exact r2lock)
        (by simp only [Option.getD_some]; exact r2stage)
        (by simp only [Option.getD_some]; omega)] at e3
  have r3stage : r3.notes.stage = "metric" := by rw [e3]; exact (stepBusiness_fields _ _).2.2.1
  have r3lock : r3.notes.capture_locked = false := by
    rw [e3, (stepBusiness_fields _ _).2.2.2.1, zionPre_locked]
    simp only [Option.getD_some]
    exact r2lock
  have r3ui : r3.notes.user_inputs = 3 := by
    rw [e3, (stepBusiness_fields _ _).2.2.2.2.1, zionPre_ui]
    simp only [Option.getD_some]
    omega
  have c3 : r3.capture_intent = "none" := by rw [e3]; exact (stepBusiness_fields _ _).1
  -- turn 4: stage metric, capture locks
  rw [zionStep_eq_metric
        { message := m4, session_id := sid, turn := some r3.turn, notes := some r3.notes } w4
        (by simp only [Option.getD_some]; exact r3lock)
        (by simp only [Option.getD_some]; exact r3stage)
        (by simp only [Option.getD_some]; omega)] at e4
  have c4 : r4.capture_intent = "ask_contact" := by rw [e4]; exact (stepMetric_fields _ _).1
  have r4lock : r4.notes.capture_locked = true := by
    rw [e4]
    exact (stepMetric_fields _ _).2.2.2.1
  exact ⟨c1, c2, c3, c4, r4lock, fun msgs r hr => zionRun_locked msgs r4.notes r4.turn r4lock r hr⟩

/-- C3 witness: the amended statement on the concrete fresh-session run
(3 concrete non-low-signal answers, then a 4th turn), hypotheses
discharged by evaluation. -/
theorem capture_on_fourth_turn_witness :
    (isNonAnswer (normalize ("we need more leads")) = false ∧
     isNonAnswer (normalize ("landscaping services for homeowners")) = false ∧
     isNonAnswer (normalize ("20 leads per month")) = false) ∧
    (c3r1.capture_intent = "none" ∧ c3r2.capture_intent = "none" ∧ c3r3.capture_intent = "none" ∧
     c3r4.capture_intent = "ask_contact" ∧ c3r4.notes.capture_locked = true ∧
     ∀ msgs r, r ∈ zionRun c3r4.notes c3r4.turn msgs → r.capture_intent = "ask_contact") :=
  ⟨⟨by decide, by decide, by decide⟩,
    capture_on_fourth_turn ("s") 0 ("we need more leads") ("landscaping services for homeowners")
      ("20 leads per month") ("lets go") ("t1") ("t2") ("t3") ("t4") c3r1 c3r2 c3r3 c3r4
      (by decide) (by decide) (by decide) rfl rfl rfl rfl⟩

/-! Section: helper lemmas: intake.js and proposal.js -/

theorem validate_tiers_of (o : JsVal) (h : validateProposalShape o = true) :
    ∃ ts, getField o ("tiers") = JsVal.arr ts ∧ ts.length = 3 ∧ ts.all tierOk = true := by
  unfold validateProposalShape at h
  split_ifs at h
  rcases hts : getField o ("tiers") with _ | _ | b | q | s | ts | fs <;> rw [hts] at h
  · exact absurd h Bool.false_ne_true
  · exact absurd h Bool.false_ne_true
  · exact absurd h Bool.false_ne_true
  · exact absurd h Bool.false_ne_true
  · exact absurd h Bool.false_ne_true
  · rw [Bool.and_eq_true] at h
    exact ⟨ts, rfl, of_decide_eq_true h.1, h.2⟩
  · exact absurd h Bool.false_ne_true

theorem proposal_fail_key_ne (pid : String) :
    ("proposal_fail:" ++ pid : String) ≠ ("proposal:" ++ pid : String) := by
  intro h
  have hlen := congrArg String.length h
  rw [String.length_append, String.length_append] at hlen
  have l1 : ("proposal_fail:" : String).length = 14 := rfl
  have l2 : ("proposal:" : String).length = 9 := rfl
  rw [l1, l2] at hlen
  omega

/-! Section: claim theorems: proposal generation, intake and fetch -/

/-- C1: for every key configuration, parser behaviour and pair of raw
text-generation outputs (first attempt and repair attempt), the call either
returns a document that passes `validateProposalShape` — in particular its
`tiers` field is an array of exactly 3 objects — obtained by parsing one of
the two raw outputs (never fabricated), or fails carrying both raw outputs
for diagnostics. -/
theorem generateProposalStrict_contract (k : Bool) (p : String → Option JsVal) (t1 t2 : String) :
    (match generateProposalStrict k p t1 t2 with
      | .ok (obj, raw) =>
          validateProposalShape obj = true ∧
          (∃ ts, getField obj ("tiers") = JsVal.arr ts ∧ ts.length = 3 ∧ ts.all tierOk = true) ∧
          ((raw = jsTrim t1 ∧ parseLoose p (jsTrim t1) = some obj) ∨
           (raw = jsTrim t2 ∧ parseLoose p (jsTrim t2) = some obj))
      | .error (.genErr g) => g.raw1 = jsTrim t1 ∧ g.raw2 = jsTrim t2
      | .error (.envErr m) => k = false ∧ m = "GEMINI_API_KEY missing") := by
  unfold generateProposalStrict
  dsimp only
  by_cases hk : k = true
  · rw [if_neg (not_not_intro hk)]
    cases hp1 : parseLoose p (jsTrim t1) with
    | some obj =>
      dsimp only
      by_cases hv : (truthy obj && validateProposalShape obj) = true
      · rw [if_pos hv]
        have h1 := hv
        rw [Bool.and_eq_true] at h1
        exact ⟨h1.2, validate_tiers_of obj h1.2, Or.inl ⟨rfl, rfl⟩⟩
      · rw [if_neg hv]
        cases hp2 : parseLoose p (jsTrim t2) with
        | some obj2 =>
          dsimp only
          by_cases hv2 : (truthy obj2 && validateProposalShape obj2) = true
          · rw [if_pos hv2]
            have h2 := hv2
            rw [Bool.and_eq_true] at h2
            exact ⟨h2.2, validate_tiers_of obj2 h2.2, Or.inr ⟨rfl, rfl⟩⟩
          · rw [if_neg hv2]
            exact ⟨rfl, rfl⟩
        | none => exact ⟨rfl, rfl⟩
    | none =>
      dsimp only
      cases hp2 : parseLoose p (jsTrim t2) with
      | some obj2 =>
        dsimp only
        by_cases hv2 : (truthy obj2 && validateProposalShape obj2) = true
        · rw [if_pos hv2]
          have h2 := hv2
          rw [Bool.and_eq_true] at h2
          exact ⟨h2.2, validate_tiers_of obj2 h2.2, Or.inr ⟨rfl, rfl⟩⟩
        · rw [if_neg hv2]
          exact ⟨rfl, rfl⟩
      | none => exact ⟨rfl, rfl⟩
  · rw [if_pos hk]
    refine ⟨?_, rfl⟩
    cases hkk : k
    · rfl
    · exact absurd hkk hk

/-- C5 counterexample: a candidate that is well-formed in every respect —
object, non-empty string `executive_summary`, `tiers` an array of exactly 3
objects, each with a non-empty string `name`, an array `scope`, and a
numeric monthly price — but carries that price under the alternate
historical field name `monthly_price` — is rejected by the validator: only
`price_monthly` is accepted, not either of the two names. -/
theorem validate_altPriceName_cex :
    jsTypeof altProposal = "object" ∧
    truthy (getField altProposal ("executive_summary")) = true ∧
    jsTypeof (getField altProposal ("executive_summary")) = "string" ∧
    isArray (getField altProposal ("tiers")) = true ∧
    tiersCount altProposal = 3 ∧
    jsTypeof altTier = "object" ∧
    truthy (getField altTier ("name")) = true ∧
    jsTypeof (getField altTier ("name")) = "string" ∧
    jsTypeof (getField altTier ("monthly_price")) = "number" ∧
    isArray (getField altTier ("scope")) = true ∧
    validateProposalShape altProposal = false :=
  ⟨rfl, rfl, rfl, rfl, rfl, rfl, rfl, rfl, rfl, rfl, rfl⟩

/-- C5 amended: the validator accepts a candidate whose tiers carry the
numeric monthly price under the single field name `price_monthly` (the one
name the validator checks): every object with a non-empty string
`executive_summary` and exactly 3 tiers, each with a non-empty `name`, a
numeric `price_monthly` and an array `scope`, validates. -/
theorem validate_priceMonthly_accepts (s n1 n2 n3 : String) (q1 q2 q3 : ℚ)
    (s1 s2 s3 : List JsVal)
    (hs : s ≠ "") (h1 : n1 ≠ "") (h2 : n2 ≠ "") (h3 : n3 ≠ "") :
    validateProposalShape (mkProposal s n1 n2 n3 q1 q2 q3 s1 s2 s3) = true := by
  simp [validateProposalShape, mkProposal, mkTier, getField, truthy, jsTypeof, tierOk,
        isArray, List.find?, List.all, hs, h1, h2, h3]

/-- C5 witness: the amended statement at a concrete well-formed candidate. -/
theorem validate_priceMonthly_accepts_witness :
    (("Executive summary." : String) ≠ "" ∧ ("Ignite" : String) ≠ "" ∧
     ("Elevate" : String) ≠ "" ∧ ("Luminary" : String) ≠ "") ∧
    validateProposalShape
      (mkProposal ("Executive summary.") ("Ignite") ("Elevate") ("Luminary")
        950 1450 2250 [] [] []) = true :=
  ⟨⟨by decide, by decide, by decide, by decide⟩,
    validate_priceMonthly_accepts ("Executive summary.") ("Ignite") ("Elevate") ("Luminary")
      950 1450 2250 [] [] [] (by decide) (by decide) (by decide) (by decide)⟩

/-- C6 counterexample: a request in which the CRM forward and the proposal
generation succeed but the key-value persistence call fails is answered
with `ok:false` and HTTP 500 — the persistence failure does fail the
overall request. -/
theorem kvFailure_fails_request_cex :
    wKvFail.ghl = none ∧
    wKvFail.kvMain = some ("KV pipeline failed: HTTP 500") ∧
    exceptOk (generateProposalStrict wKvFail.geminiKey wKvFail.p wKvFail.t1 wKvFail.t2) = true ∧
    (intakeHandler wKvFail ("POST") (some bodyA) ("0.ab12cd34ef") ("T")).ok = false ∧
    (intakeHandler wKvFail ("POST") (some bodyA) ("0.ab12cd34ef") ("T")).status = 500 :=
  ⟨rfl, rfl, rfl, rfl, rfl⟩

/-- C6 amended: when CRM forwarding and generation succeed but the main
key-value write throws, the request fails with `ok:false` and HTTP 500; the
failure is recorded separately (best effort) under `proposal_fail:{pid}` —
never under `proposal:{pid}` — and the already-performed CRM forward is not
undone. -/
theorem kvFailure_yields_500 (w : IntakeWorld) (b : JsVal) (randHex now m : String)
    (pr : JsVal) (raw : String)
    (hghl : w.ghl = none)
    (hgen : generateProposalStrict w.geminiKey w.p w.t1 w.t2 = .ok (pr, raw))
    (hkv : w.kvMain = some m)
    (hemail : jsTrim (strOrEmpty (getField b ("email"))) ≠ "") :
    (intakeHandler w ("POST") (some b) randHex now).status = 500 ∧
    (intakeHandler w ("POST") (some b) randHex now).ok = false ∧
    (intakeHandler w ("POST") (some b) randHex now).crmForwarded = true ∧
    (∀ kv ∈ (intakeHandler w ("POST") (some b) randHex now).kvWrites,
        kv.1 = "proposal_fail:" ++ makePid randHex) ∧
    (∀ kv ∈ (intakeHandler w ("POST") (some b) randHex now).kvWrites,
        kv.1 ≠ "proposal:" ++ makePid randHex) := by
  have hred : intakeHandler w ("POST") (some b) randHex now =
      intakeCatch w b (makePid randHex) now m .null .null true := by
    unfold intakeHandler
    rw [if_neg (by decide), if_neg (by decide)]
    dsimp only
    rw [if_neg hemail, hghl]
    dsimp only
    rw [hgen]
    dsimp only
    rw [hkv]
  rw [hred]
  unfold intakeCatch
  cases hfr : w.kvFailRec <;> dsimp only
  · refine ⟨rfl, rfl, rfl, ?_, ?_⟩
    · intro kv hkv'
      rw [List.mem_singleton] at hkv'
      rw [hkv']
    · intro kv hkv'
      rw [List.mem_singleton] at hkv'
      rw [hkv']
      exact proposal_fail_key_ne (makePid randHex)
  · refine ⟨rfl, rfl, rfl, ?_, ?_⟩
    · intro kv hkv'
      exact absurd hkv' (List.not_mem_nil kv)
    · intro kv hkv'
      exact absurd hkv' (List.not_mem_nil kv)

/-- C6 witness: the amended statement at a concrete world where the main KV
write throws. -/
theorem kvFailure_yields_500_witness :
    (wKvFail.ghl = none ∧ wKvFail.kvMain = some ("KV pipeline failed: HTTP 500") ∧
     jsTrim (strOrEmpty (getField bodyA ("email"))) ≠ "") ∧
    ((intakeHandler wKvFail ("POST") (some bodyA) ("0.ab12cd34ef") ("T")).status = 500 ∧
     (intakeHandler wKvFail ("POST") (some bodyA) ("0.ab12cd34ef") ("T")).ok = false ∧
     (intakeHandler wKvFail ("POST") (some bodyA) ("0.ab12cd34ef") ("T")).crmForwarded = true ∧
     (∀ kv ∈ (intakeHandler wKvFail ("POST") (some bodyA) ("0.ab12cd34ef") ("T")).kvWrites,
         kv.1 = "proposal_fail:" ++ makePid ("0.ab12cd34ef")) ∧
     (∀ kv ∈ (intakeHandler wKvFail ("POST") (some bodyA) ("0.ab12cd34ef") ("T")).kvWrites,
         kv.1 ≠ "proposal:" ++ makePid ("0.ab12cd34ef"))) :=
  ⟨⟨rfl, rfl, by decide⟩,
    kvFailure_yields_500 wKvFail bodyA ("0.ab12cd34ef") ("T") ("KV pipeline failed: HTTP 500")
      goodProposal ("T1") rfl rfl rfl (by decide)⟩

/-- C7: whenever the pipeline `GET` result for a key is absent (`null` /
missing, covering expired keys) or is a stored string the parser rejects,
`kvGetJson` returns JS `null` — not an error and not a parse error — and
the fetch endpoint answers 404 "not found". -/
theorem kvGet_notFound (p : String → Option JsVal) (pidRaw : String) (data : JsVal)
    (hpid : jsTrim pidRaw ≠ "")
    (habs : pipeResult data = .null ∨ pipeResult data = .undefined ∨
            ∃ s, pipeResult data = .str s ∧ p s = none) :
    kvGetJson p data = .null ∧
    proposalHandler p ("GET") pidRaw (.ok data) =
      { status := 404, ok := false, error := some ("Proposal not found (expired or invalid pid)") } := by
  have hkv : kvGetJson p data = .null := by
    unfold kvGetJson
    dsimp only
    rcases habs with h | h | ⟨s, hs, hp⟩
    · rw [h]
      rfl
    · rw [h]
      rfl
    · rw [hs]
      by_cases hse : s = ""
      · rw [hse]
        rfl
      · have ht : truthy (JsVal.str s) = true := by
          simp [truthy, hse]
        rw [if_neg (not_not_intro ht)]
        dsimp only
        rw [hp]
  refine ⟨hkv, ?_⟩
  unfold proposalHandler
  rw [if_neg (by decide), if_neg (by decide)]
  dsimp only
  rw [if_neg hpid]
  rw [hkv]
  rfl

/-- C7 witness: a pipeline response with a `null` result (absent or expired
key) on a concrete pid. -/
theorem kvGet_notFound_witness :
    (jsTrim ("AB12CD34") ≠ "" ∧ pipeResult pipeNullResp = JsVal.null) ∧
    (kvGetJson pNone pipeNullResp = JsVal.null ∧
     proposalHandler pNone ("GET") ("AB12CD34") (.ok pipeNullResp) =
       { status := 404, ok := false, error := some ("Proposal not found (expired or invalid pid)") }) :=
  ⟨⟨by decide, rfl⟩,
    kvGet_notFound pNone ("AB12CD34") pipeNullResp (by decide) (Or.inl rfl)⟩

theorem intake_pid_assigned (w : IntakeWorld) (b : JsVal) (randHex now : String)
    (hemail : jsTrim (strOrEmpty (getField b ("email"))) ≠ "") :
    (intakeHandler w ("POST") (some b) randHex now).pid = some (makePid randHex) := by
  unfold intakeHandler
  rw [if_neg (by decide), if_neg (by decide)]
  dsimp only
  rw [if_neg hemail]
  cases w.ghl with
  | some m => rfl
  | none =>
    dsimp only
    cases generateProposalStrict w.geminiKey w.p w.t1 w.t2 with
    | error e =>
      cases e with
      | envErr m => rfl
      | genErr g => rfl
    | ok v =>
      obtain ⟨pr, raw⟩ := v
      dsimp only
      cases w.kvMain with
      | some m => rfl
      | none => rfl

/-- C8 counterexample: two distinct valid submissions (different emails)
processed with the same `Math.random()` draw receive the same identifier —
the generator is a pure function of the draw and performs no check against
previously issued ids, so uniqueness is not guaranteed. -/
theorem pid_collision_cex :
    strOrEmpty (getField bodyA ("email")) = "a@b.com" ∧
    strOrEmpty (getField bodyB ("email")) = "c@d.com" ∧
    ("a@b.com" : String) ≠ "c@d.com" ∧
    (intakeHandler wOK ("POST") (some bodyA) ("0.ab12cd34ef") ("T")).ok = true ∧
    (intakeHandler wOK ("POST") (some bodyB) ("0.ab12cd34ef") ("T")).ok = true ∧
    (intakeHandler wOK ("POST") (some bodyA) ("0.ab12cd34ef") ("T")).pid =
      (intakeHandler wOK ("POST") (some bodyB) ("0.ab12cd34ef") ("T")).pid :=
  ⟨rfl, rfl, by decide, rfl, rfl, rfl⟩

/-- C8 amended: the identifier assigned to a valid submission is
`makePid` of the request's `Math.random()` draw alone — characters 2–9 of
the draw's base-16 string, uppercased — independent of the submission
contents and with no store-side uniqueness check; two submissions receive
distinct ids exactly when their draws map to distinct `makePid` strings. -/
theorem pid_from_draw_only (w1 w2 : IntakeWorld) (b1 b2 : JsVal) (rh1 rh2 now1 now2 : String)
    (he1 : jsTrim (strOrEmpty (getField b1 ("email"))) ≠ "")
    (he2 : jsTrim (strOrEmpty (getField b2 ("email"))) ≠ "") :
    (intakeHandler w1 ("POST") (some b1) rh1 now1).pid = some (makePid rh1) ∧
    (intakeHandler w2 ("POST") (some b2) rh2 now2).pid = some (makePid rh2) ∧
    ((intakeHandler w1 ("POST") (some b1) rh1 now1).pid =
        (intakeHandler w2 ("POST") (some b2) rh2 now2).pid ↔ makePid rh1 = makePid rh2) := by
  refine ⟨intake_pid_assigned w1 b1 rh1 now1 he1, intake_pid_assigned w2 b2 rh2 now2 he2, ?_⟩
  rw [intake_pid_assigned w1 b1 rh1 now1 he1, intake_pid_assigned w2 b2 rh2 now2 he2]
  exact Option.some_inj

/-- C8 witness: the amended statement at two concrete valid submissions and
draws. -/
theorem pid_from_draw_only_witness :
    (jsTrim (strOrEmpty (getField bodyA ("email"))) ≠ "" ∧
     jsTrim (strOrEmpty (getField bodyB ("email"))) ≠ "") ∧
    ((intakeHandler wOK ("POST") (some bodyA) ("0.ab12cd34ef") ("T")).pid =
        some (makePid ("0.ab12cd34ef")) ∧
     (intakeHandler wOK ("POST") (some bodyB) ("0.99887766aa") ("T")).pid =
        some (makePid ("0.99887766aa")) ∧
     ((intakeHandler wOK ("POST") (some bodyA) ("0.ab12cd34ef") ("T")).pid =
         (intakeHandler wOK ("POST") (some bodyB) ("0.99887766aa") ("T")).pid ↔
       makePid ("0.ab12cd34ef") = makePid ("0.99887766aa"))) :=
  ⟨⟨by decide, by decide⟩,
    pid_from_draw_only wOK wOK bodyA bodyB ("0.ab12cd34ef") ("0.99887766aa") ("T") ("T")
      (by decide) (by decide)⟩

/-- C9: when proposal generation still fails validation after the repair
attempt, the request fails (`ok:false`, HTTP 500); no KV write under
`proposal:{pid}` succeeds for that request, so a subsequent fetch of the id
returns the 404 not-found response; and the CRM forward, having already
succeeded, is not undone. -/
theorem generation_failure_aborts (w : IntakeWorld) (b : JsVal) (randHex now : String) (g : GenFail)
    (hghl : w.ghl = none)
    (hgen : generateProposalStrict w.geminiKey w.p w.t1 w.t2 = .error (.genErr g))
    (hemail : jsTrim (strOrEmpty (getField b ("email"))) ≠ "")
    (hpid : jsTrim (makePid randHex) ≠ "") :
    (intakeHandler w ("POST") (some b) randHex now).ok = false ∧
    (intakeHandler w ("POST") (some b) randHex now).status = 500 ∧
    (intakeHandler w ("POST") (some b) randHex now).crmForwarded = true ∧
    (∀ kv ∈ (intakeHandler w ("POST") (some b) randHex now).kvWrites,
        kv.1 ≠ "proposal:" ++ makePid randHex) ∧
    proposalHandler w.p ("GET") (makePid randHex) (.ok pipeNullResp) =
      { status := 404, ok := false, error := some ("Proposal not found (expired or invalid pid)") } := by
  have hred : intakeHandler w ("POST") (some b) randHex now =
      intakeCatch w b (makePid randHex) now g.message (rawOrNull g.raw1) (rawOrNull g.raw2) true := by
    unfold intakeHandler
    rw [if_neg (by decide), if_neg (by decide)]
    dsimp only
    rw [if_neg hemail, hghl]
    dsimp only
    rw [hgen]
  have hfetch : proposalHandler w.p ("GET") (makePid randHex) (.ok pipeNullResp) =
      { status := 404, ok := false, error := some ("Proposal not found (expired or invalid pid)") } :=
    (kvGet_notFound w.p (makePid randHex) pipeNullResp hpid (Or.inl rfl)).2
  rw [hred]
  unfold intakeCatch
  cases hfr : w.kvFailRec <;> dsimp only
  · refine ⟨rfl, rfl, rfl, ?_, hfetch⟩
    intro kv hkv'
    rw [List.mem_singleton] at hkv'
    rw [hkv']
    exact proposal_fail_key_ne (makePid randHex)
  · refine ⟨rfl, rfl, rfl, ?_, hfetch⟩
    intro kv hkv'
    exact absurd hkv' (List.not_mem_nil kv)

/-- C9 witness: a concrete world where both generation attempts return
unparseable text; the request fails with 500, nothing is stored under the
`proposal:` key, and fetching the pid answers 404. -/
theorem generation_failure_aborts_witness :
    (wGenFail.ghl = none ∧
     generateProposalStrict wGenFail.geminiKey wGenFail.p wGenFail.t1 wGenFail.t2 =
       .error (.genErr { message := "Gemini returned non-JSON proposal",
                         raw1 := "bad output", raw2 := "still bad" }) ∧
     jsTrim (strOrEmpty (getField bodyA ("email"))) ≠ "" ∧
     jsTrim (makePid ("0.ab12cd34ef")) ≠ "") ∧
    ((intakeHandler wGenFail ("POST") (some bodyA) ("0.ab12cd34ef") ("T")).ok = false ∧
     (intakeHandler wGenFail ("POST") (some bodyA) ("0.ab12cd34ef") ("T")).status = 500 ∧
     (intakeHandler wGenFail ("POST") (some bodyA) ("0.ab12cd34ef") ("T")).crmForwarded = true ∧
     (∀ kv ∈ (intakeHandler wGenFail ("POST") (some bodyA) ("0.ab12cd34ef") ("T")).kvWrites,
         kv.1 ≠ "proposal:" ++ makePid ("0.ab12cd34ef")) ∧
     proposalHandler wGenFail.p ("GET") (makePid ("0.ab12cd34ef")) (.ok pipeNullResp) =
       { status := 404, ok := false, error := some ("Proposal not found (expired or invalid pid)") }) :=
  ⟨⟨rfl, rfl, by decide, by decide⟩,
    generation_failure_aborts wGenFail bodyA ("0.ab12cd34ef") ("T")
      { message := "Gemini returned non-JSON proposal", raw1 := "bad output", raw2 := "still bad" }
      rfl rfl (by decide) (by decide)⟩

end ZB
